import Mathlib

/-!
Shallow embedding of the payment-gated RPC mediation core of the
x402-mcp-extension repository, together with theorems settling the
frozen claims about its specification.

Server side: `PaymentOrchestrator` (validatePayment / settlePayment /
sendPaymentRequiredRequest / validatePaymentProof) and
`HandlerWrapperFactory.createWrappedHandler`.
Client side: `GuardrailsService.enforce`, `X402MCPClient.handlePaymentRequired`,
`PaymentAuditStorage` over the generic key/value store.
External collaborators (session transport, facilitator, wallet, pricer)
appear as explicit outcome parameters, mirroring their interfaces.
-/

deriving instance DecidableEq for Except

namespace X402

/-! Error codes, from src/shared/error-codes.ts. -/

def ERROR_CODES_METHOD_NOT_FOUND : Int := -32601
def ERROR_CODES_INVALID_REQUEST : Int := -32600
def ERROR_CODES_PAYMENT_REQUIRED : Int := 40200
def ERROR_CODES_PAYMENT_INVALID : Int := 40201
def ERROR_CODES_REPLAY_DETECTED : Int := 40203
def ERROR_CODES_PAYMENT_EXECUTION_FAILED : Int := 40204
def ERROR_CODES_GUARDRAIL_VIOLATION : Int := 40210
def ERROR_CODES_WHITELIST_VIOLATION : Int := 40211

/-- Structured `details` values attached to a PaymentError in the source
(the TypeScript field is typed `any`; these are the shapes actually passed). -/
inductive ErrDetails where
  | paymentRequiredInfo (amount asset paymentAddress network : String)
  | guardrailInfo (amount maxPaymentPerCall : ℚ)
  | whitelistInfo (payTo : String) (whitelistedServers : List String)
  | transportInfo (code : Option Int) (message : String)
  deriving Repr, DecidableEq

/-- PaymentError from src/shared/errors/PaymentError.ts: a code, a message and
optional structured details. -/
structure PaymentError where
  code : Int
  message : String
  details : Option ErrDetails := none
  deriving Repr, DecidableEq

/-- A thrown JavaScript value as the wrapper and orchestrator distinguish them:
either a PaymentError instance, or any other error carrying a message. -/
inductive JSError where
  | payment (e : PaymentError)
  | generic (message : String)
  deriving Repr, DecidableEq

/-- Message of a thrown value, as read by `error.message` in catch blocks. -/
def JSError.messageOf : JSError → String
  | .payment e => e.message
  | .generic m => m

/-- PaymentRequirements as consumed by the orchestrator (x402 type plus the
fields assemblePaymentRequirements fills in). -/
structure PaymentRequirements where
  scheme : String
  network : String
  maxAmountRequired : String
  resource : String
  description : String
  mimeType : String
  payTo : String
  maxTimeoutSeconds : Nat
  asset : String
  deriving Repr, DecidableEq

/-- The client payment payload fields the orchestrator inspects:
x402Version, scheme, network and payload.signature. `signature = none`
models a missing `payload.signature`; the empty string is also falsy in JS. -/
structure PaymentPayload where
  x402Version : Int
  scheme : String
  network : String
  signature : Option String
  deriving Repr, DecidableEq

/-- JS falsiness of `payment.payload?.signature`. -/
def PaymentPayload.signatureMissing (p : PaymentPayload) : Bool :=
  match p.signature with
  | none => true
  | some s => s == ""

/-- Response to the x402/payment_required sub-RPC: `result.payment`
(`none` models an absent payment field, falsy in the source check). -/
structure PaymentRequiredResponse where
  id : String
  payment : Option PaymentPayload
  deriving Repr, DecidableEq

/-- A transport-level error rejected from `extra.sendRequest`. -/
structure TransportError where
  code : Option Int
  message : String
  deriving Repr, DecidableEq

/-- Outcome of the sub-RPC `extra.sendRequest` call, supplied by the
session transport. -/
inductive SubRpcOutcome where
  | ok (response : PaymentRequiredResponse)
  | err (e : TransportError)
  deriving Repr, DecidableEq

/-- Constructor options of PaymentOrchestrator that the state machine reads. -/
structure OrchestratorOptions where
  payTo : String
  network : String
  deriving Repr, DecidableEq

/-- Facilitator validatePayment result. -/
structure ValidationResult where
  isValid : Bool
  invalidReason : Option String := none
  deriving Repr, DecidableEq

/-- Facilitator executePayment result (PaymentResult in shared/schemas). -/
structure PaymentResult where
  success : Bool
  transaction : Option String := none
  network : String := ""
  payer : Option String := none
  errorReason : Option String := none
  deriving Repr, DecidableEq

/-- Per-invocation request context (RequestHandlerExtra extended with the
payment fields the orchestrator attaches). -/
structure Extra where
  requestId : String
  paymentProof : Option PaymentPayload := none
  paymentRequirements : Option PaymentRequirements := none
  deriving Repr, DecidableEq

/-- Boolean prefix test on character lists. -/
def listStartsWith : List Char → List Char → Bool
  | [], _ => true
  | _ :: _, [] => false
  | a :: as, b :: bs => a == b && listStartsWith as bs

/-- Boolean infix test on character lists. -/
def listOccursIn (pat : List Char) : List Char → Bool
  | [] => listStartsWith pat []
  | c :: rest => listStartsWith pat (c :: rest) || listOccursIn pat rest

/-- Substring test mirroring JavaScript String.prototype.includes. -/
def strIncludes (s pat : String) : Bool :=
  listOccursIn pat.data s.data

/-- PaymentOrchestrator.isMethodNotFoundError: code -32601 or a message
containing a method-not-found phrase. -/
def isMethodNotFoundError (e : TransportError) : Bool :=
  e.code == some (-32601)
    || strIncludes e.message "Method not found"
    || strIncludes e.message "method not found"

/-- The outbound x402/payment_required challenge message, as built at
PaymentOrchestrator.sendPaymentRequiredRequest lines 183-202: the JSON-RPC
id and params.requestId are both `extra.requestId`. -/
structure PaymentRequiredMsg where
  id : String
  method : String
  scheme : String
  network : String
  maxAmountRequired : String
  resource : String
  description : String
  mimeType : String
  payTo : String
  maxTimeoutSeconds : Nat
  asset : String
  x402Version : Int
  requestId : String
  deriving Repr, DecidableEq

/-- Challenge construction from the requirements and the originating id. -/
def buildPaymentRequiredMsg (reqs : PaymentRequirements) (requestId : String) :
    PaymentRequiredMsg :=
  { id := requestId
    method := "x402/payment_required"
    scheme := reqs.scheme
    network := reqs.network
    maxAmountRequired := reqs.maxAmountRequired
    resource := reqs.resource
    description := reqs.description
    mimeType := reqs.mimeType
    payTo := reqs.payTo
    maxTimeoutSeconds := reqs.maxTimeoutSeconds
    asset := reqs.asset
    x402Version := 1
    requestId := requestId }

/-- PaymentOrchestrator.sendPaymentRequiredRequest: forwards a successful
response; on a transport error raises PAYMENT_REQUIRED for method-not-found
(details hold amount, asset, paymentAddress, network), otherwise a
PaymentError whose code is the transport error code when truthy and
PAYMENT_INVALID when absent or zero. -/
def sendPaymentRequiredRequest (opts : OrchestratorOptions)
    (reqs : PaymentRequirements) (outcome : SubRpcOutcome) :
    Except PaymentError PaymentRequiredResponse :=
  match outcome with
  | .ok r => .ok r
  | .err e =>
    if isMethodNotFoundError e then
      .error
        { code := ERROR_CODES_PAYMENT_REQUIRED
          message := "Payment required: " ++
            (if reqs.description == "" then
              "Payment is required for this operation"
            else reqs.description)
          details := some (.paymentRequiredInfo reqs.maxAmountRequired
            reqs.asset opts.payTo opts.network) }
    else
      .error
        { code :=
            match e.code with
            | some c => if c ≠ 0 then c else ERROR_CODES_PAYMENT_INVALID
            | none => ERROR_CODES_PAYMENT_INVALID
          message := "Failed to send payment request"
          details := some (.transportInfo e.code e.message) }

/-- PaymentOrchestrator.validatePaymentProof: structural checks in source
order, then the facilitator verdict; on success stores the proof and the
requirements into the context. -/
def validatePaymentProof (facResult : ValidationResult)
    (response : PaymentRequiredResponse) (reqs : PaymentRequirements)
    (extra : Extra) : Except PaymentError (PaymentPayload × Extra) :=
  match response.payment with
  | none =>
    .error { code := ERROR_CODES_PAYMENT_INVALID
             message := "Invalid payment proof: missing signature" }
  | some payment =>
    if payment.signatureMissing then
      .error { code := ERROR_CODES_PAYMENT_INVALID
               message := "Invalid payment proof: missing signature" }
    else if payment.x402Version ≠ 1 then
      .error { code := ERROR_CODES_INVALID_REQUEST
               message := "Invalid x402 version" }
    else if payment.scheme ≠ "exact" then
      .error { code := ERROR_CODES_PAYMENT_INVALID
               message := "Invalid payment scheme" }
    else if payment.network ≠ reqs.network then
      .error { code := ERROR_CODES_PAYMENT_INVALID
               message := "Invalid payment proof: network mismatch" }
    else if !facResult.isValid then
      .error { code := ERROR_CODES_PAYMENT_INVALID
               message := facResult.invalidReason.getD
                 "Payment proof validation failed" }
    else
      .ok (payment,
        { extra with
            paymentProof := some payment
            paymentRequirements := some reqs })

/-- PaymentOrchestrator.validatePayment: the verify phase, composing the
sub-RPC with proof validation. Every raised error is already a
PaymentError, so the catch-and-rewrap branch is the identity. -/
def validatePayment (opts : OrchestratorOptions) (reqs : PaymentRequirements)
    (facResult : ValidationResult) (subRpc : SubRpcOutcome) (extra : Extra) :
    Except PaymentError Extra :=
  match sendPaymentRequiredRequest opts reqs subRpc with
  | .error e => .error e
  | .ok response =>
    match validatePaymentProof facResult response reqs extra with
    | .error e => .error e
    | .ok (_, extra2) => .ok extra2

/-- Parameters of an emitted x402/payment_result notification. -/
structure PaymentResultParams where
  success : Bool
  transaction : Option String := none
  network : String
  payer : Option String := none
  errorReason : Option String := none
  requestId : String
  deriving Repr, DecidableEq

/-- Observable output of PaymentOrchestrator.settlePayment: the returned or
thrown value, the notifications sent, and whether facilitator
executePayment was invoked. -/
structure SettleOutput where
  result : Except JSError Unit
  sentNotifs : List PaymentResultParams
  execCalled : Bool
  deriving Repr, DecidableEq

/-- PaymentOrchestrator.settlePayment over a given facilitator executePayment
outcome. Reads the proof and requirements from the context; on any failure
in the try block sends one success=false notification and rethrows, keeping
a PaymentError verbatim and wrapping anything else in
PAYMENT_EXECUTION_FAILED. -/
def settlePayment (opts : OrchestratorOptions)
    (execOutcome : Except JSError PaymentResult) (extra : Extra) :
    SettleOutput :=
  match extra.paymentProof, extra.paymentRequirements with
  | some _, some _ =>
    match execOutcome with
    | .ok res =>
      if res.success then
        { result := .ok ()
          sentNotifs := [{ success := true
                           transaction := res.transaction
                           network := res.network
                           payer := res.payer
                           requestId := extra.requestId }]
          execCalled := true }
      else
        let e : PaymentError :=
          { code := ERROR_CODES_PAYMENT_EXECUTION_FAILED
            message := "Payment settlement failed: " ++
              res.errorReason.getD "undefined" }
        { result := .error (.payment e)
          sentNotifs := [{ success := false
                           errorReason := some e.message
                           network := opts.network
                           requestId := extra.requestId }]
          execCalled := true }
    | .error thrown =>
      let rethrown : JSError :=
        match thrown with
        | .payment pe => .payment pe
        | .generic m =>
          .payment { code := ERROR_CODES_PAYMENT_EXECUTION_FAILED
                     message := "Payment settlement failed: " ++ m }
      { result := .error rethrown
        sentNotifs := [{ success := false
                         errorReason := some thrown.messageOf
                         network := opts.network
                         requestId := extra.requestId }]
        execCalled := true }
  | _, _ =>
    let e : PaymentError :=
      { code := ERROR_CODES_PAYMENT_INVALID
        message := "Payment proof or requirements not found in context" }
    { result := .error (.payment e)
      sentNotifs := [{ success := false
                       errorReason := some e.message
                       network := opts.network
                       requestId := extra.requestId }]
      execCalled := false }

/-- Per-handler payment options from the registration decorators
(amount is a JS number of priced units, modelled as a rational). -/
structure PaymentOptions where
  amount : ℚ
  description : Option String := none
  deriving Repr, DecidableEq

/-- HandlerInfo, the registry descriptor consumed by the wrapper. -/
structure HandlerInfo where
  name : String
  type : String
  paymentOptions : Option PaymentOptions := none
  deriving Repr, DecidableEq

/-- The external behavior of one invocation for the wrapped flow:
the sub-RPC outcome, the facilitator verdict, the handler body outcome
and the facilitator settlement outcome. -/
inductive HandlerOutcome where
  | ok (result : String)
  | thrown (e : JSError)
  deriving Repr, DecidableEq

structure WrapEnv where
  subRpc : SubRpcOutcome
  facValidation : ValidationResult
  handlerOutcome : HandlerOutcome
  execOutcome : Except JSError PaymentResult
  deriving Repr, DecidableEq

/-- Observable output of one run of createWrappedHandler. -/
structure WrapOutput where
  result : Except JSError String
  finalExtra : Extra
  challenges : List PaymentRequiredMsg
  sentNotifs : List PaymentResultParams
  handlerExtras : List Extra
  settleCalled : Bool
  execCalled : Bool
  deriving Repr, DecidableEq

/-- The finally block of createWrappedHandler: delete extra.paymentProof and
extra.paymentRequirements. -/
def stripPaymentFields (e : Extra) : Extra :=
  { e with paymentProof := none, paymentRequirements := none }

/-- Catch block of createWrappedHandler: a PaymentError propagates verbatim,
any other error is wrapped as a generic handler-execution failure. -/
def wrapCaughtError : JSError → JSError
  | .payment pe => .payment pe
  | .generic m => .generic ("Handler execution failed: " ++ m)

/-- HandlerWrapperFactory.createWrappedHandler: validate payment when the
descriptor carries paymentOptions, run the handler, settle on success;
on any throw map the error through the catch block; always strip the
payment fields from the context in the finally block. `handlerExtras`
records the context as the handler body sees it at each invocation. -/
def createWrappedHandler (info : HandlerInfo) (opts : OrchestratorOptions)
    (reqs : PaymentRequirements) (env : WrapEnv) (extra : Extra) :
    WrapOutput :=
  match info.paymentOptions with
  | none =>
    { result :=
        match env.handlerOutcome with
        | .ok r => .ok r
        | .thrown e => .error (wrapCaughtError e)
      finalExtra := stripPaymentFields extra
      challenges := []
      sentNotifs := []
      handlerExtras := [extra]
      settleCalled := false
      execCalled := false }
  | some _ =>
    let challenge := buildPaymentRequiredMsg reqs extra.requestId
    match validatePayment opts reqs env.facValidation env.subRpc extra with
    | .error pe =>
      { result := .error (wrapCaughtError (.payment pe))
        finalExtra := stripPaymentFields extra
        challenges := [challenge]
        sentNotifs := []
        handlerExtras := []
        settleCalled := false
        execCalled := false }
    | .ok extra2 =>
      match env.handlerOutcome with
      | .thrown e =>
        { result := .error (wrapCaughtError e)
          finalExtra := stripPaymentFields extra2
          challenges := [challenge]
          sentNotifs := []
          handlerExtras := [extra2]
          settleCalled := false
          execCalled := false }
      | .ok r =>
        let s := settlePayment opts env.execOutcome extra2
        { result :=
            match s.result with
            | .ok _ => .ok r
            | .error e => .error (wrapCaughtError e)
          finalExtra := stripPaymentFields extra2
          challenges := [challenge]
          sentNotifs := s.sentNotifs
          handlerExtras := [extra2]
          settleCalled := true
          execCalled := s.execCalled }

/-! Client side, from src/src/client/X402MCPClient.ts. -/

/-- Guardrails configuration of the client constructor options. -/
structure GuardrailsConfig where
  maxPaymentPerCall : Option ℚ := none
  whitelistedServers : Option (List String) := none
  deriving Repr, DecidableEq

/-- Per-call cap stage of GuardrailsService.enforce: fails with
GUARDRAIL_VIOLATION and details amount and maxPaymentPerCall exactly when a
cap is configured and the priced amount strictly exceeds it. -/
def capCheck (maxPaymentPerCall : Option ℚ) (amount : ℚ) :
    Except PaymentError Unit :=
  match maxPaymentPerCall with
  | none => .ok ()
  | some m =>
    if amount > m then
      .error { code := ERROR_CODES_GUARDRAIL_VIOLATION
               message := "Payment exceeds max per-call limit"
               details := some (.guardrailInfo amount m) }
    else .ok ()

/-- Allowlist stage of GuardrailsService.enforce. -/
def whitelistCheck (whitelistedServers : Option (List String))
    (payTo : String) : Except PaymentError Unit :=
  match whitelistedServers with
  | none => .ok ()
  | some ws =>
    if payTo ∈ ws then .ok ()
    else
      .error { code := ERROR_CODES_WHITELIST_VIOLATION
               message := "Payment recipient is not whitelisted"
               details := some (.whitelistInfo payTo ws) }

/-- GuardrailsService.enforce: the per-call cap, then the allowlist, each
fatal. -/
def enforce (cfg : GuardrailsConfig) (amount : ℚ) (payTo : String) :
    Except PaymentError Unit :=
  match capCheck cfg.maxPaymentPerCall amount with
  | .error e => .error e
  | .ok _ => whitelistCheck cfg.whitelistedServers payTo

/-- Params of an inbound x402/payment_required request as the client handler
reads them; the empty string models an absent (falsy) field. -/
structure ChallengeParams where
  scheme : String
  network : String
  maxAmountRequired : String
  payTo : String
  x402Version : Int
  requestId : String
  deriving Repr, DecidableEq

/-- The inbound challenge request: JSON-RPC id plus params. -/
structure ClientRequest where
  id : String
  params : ChallengeParams
  deriving Repr, DecidableEq

/-- Client response: the JSON-RPC id echoed from the request; the payment
payload itself is produced by the external x402 signing utility. -/
structure ClientResponse where
  id : String
  deriving Repr, DecidableEq

/-- Observable side effects of one run of handlePaymentRequired, in order. -/
inductive ClientEvent where
  | ledgerLookup (requestId : String)
  | ledgerPaymentPending (requestId : String)
  | accountCreated
  | signedPayload
  deriving Repr, DecidableEq

/-- Outcome of the external atomic-to-priced conversion
(processPriceToAtomicAmount plus formatUnits). -/
inductive AmountConversion where
  | ok (usdAmount : ℚ)
  | err (message : String)
  deriving Repr, DecidableEq

/-- External behavior consumed by one run of handlePaymentRequired: the
ledger record found under the pending key (when audit storage is
configured) and the conversion result (when guardrails are configured). -/
structure ClientEnv where
  pendingFound : Bool
  conversion : AmountConversion
  deriving Repr, DecidableEq

/-- Client construction options the handler branches on. -/
structure ClientConfig where
  hasAuditStorage : Bool
  guardrails : Option GuardrailsConfig := none
  deriving Repr, DecidableEq

/-- Result and event trace of one run of handlePaymentRequired. -/
structure ClientOutput where
  result : Except JSError ClientResponse
  events : List ClientEvent
  deriving Repr, DecidableEq

/-- Step 4 of handlePaymentRequired: when guardrails are configured, convert
the atomic amount to priced units (PAYMENT_INVALID on conversion failure)
and run GuardrailsService.enforce. -/
def runGuardrails (g : Option GuardrailsConfig) (conv : AmountConversion)
    (payTo : String) : Except PaymentError Unit :=
  match g with
  | none => .ok ()
  | some gg =>
    match conv with
    | .err m =>
      .error { code := ERROR_CODES_PAYMENT_INVALID
               message := "Failed to process payment amount: " ++ m }
    | .ok usdAmount => enforce gg usdAmount payTo

/-- X402MCPClient.handlePaymentRequired: structural validation, ledger
correlation (only when audit storage is configured), guardrails (only when
configured), then account creation and signing, echoing the request id on
the response. -/
def handlePaymentRequired (cfg : ClientConfig) (env : ClientEnv)
    (req : ClientRequest) : ClientOutput :=
  let p := req.params
  if p.payTo == "" || p.maxAmountRequired == "" || p.network == "" then
    { result := .error (.generic
        "Invalid payment_required request: missing required fields")
      events := [] }
  else if p.scheme ≠ "exact" then
    { result := .error (.generic ("Unsupported scheme: " ++ p.scheme))
      events := [] }
  else if p.x402Version ≠ 1 then
    { result := .error (.generic "Unsupported x402 version")
      events := [] }
  else if p.requestId == "" then
    { result := .error (.payment
        { code := ERROR_CODES_PAYMENT_INVALID
          message := "Payment request missing requestId" })
      events := [] }
  else
    let rest := fun (evs0 : List ClientEvent) =>
      match runGuardrails cfg.guardrails env.conversion p.payTo with
      | .error pe => { result := .error (.payment pe), events := evs0 }
      | .ok _ =>
        { result := .ok { id := req.id }
          events := evs0 ++ [.accountCreated, .signedPayload] }
    if cfg.hasAuditStorage then
      if env.pendingFound then
        rest [.ledgerLookup p.requestId, .ledgerPaymentPending p.requestId]
      else
        { result := .error (.payment
            { code := ERROR_CODES_PAYMENT_INVALID
              message := "Payment request for unknown payment: " ++
                p.requestId })
          events := [.ledgerLookup p.requestId] }
    else rest []

/-! Client audit ledger, from src/src/client/PaymentAuditStore.ts, over the
generic get/set/delete key/value interface. -/

/-- A client-side audit record. Date values are modelled as Nat instants. -/
structure AuditRecord where
  requestId : String
  serverId : String
  method : String
  requestStatus : String
  paymentStatus : String
  createdAt : Nat
  requestCompletedAt : Option Nat := none
  paymentCompletedAt : Option Nat := none
  errorReason : Option String := none
  transactionHash : Option String := none
  payerAddress : Option String := none
  deriving Repr, DecidableEq

/-- The backing key/value store: an association list of keys to serialized
records (JSON round-tripping is the identity on this model). -/
abbrev Store : Type := List (String × AuditRecord)

/-- storage.get. -/
def storeGet (s : Store) (k : String) : Option AuditRecord :=
  (s.find? (fun kv => kv.1 == k)).map (fun kv => kv.2)

/-- storage.set: overwrite the key when present, otherwise insert. -/
def storeSet (s : Store) (k : String) (v : AuditRecord) : Store :=
  if s.any (fun kv => kv.1 == k) then
    s.map (fun kv => if kv.1 == k then (k, v) else kv)
  else (k, v) :: s

/-- storage.delete. -/
def storeDelete (s : Store) (k : String) : Store :=
  s.filter (fun kv => kv.1 ≠ k)

/-- PaymentAuditStorage.buildPendingKey. -/
def buildPendingKey (requestId : String) : String :=
  "pending:" ++ requestId

/-- PaymentAuditStorage.storePendingRequest: insert under the pending key
with both statuses pending; an empty request id is rejected. -/
def storePendingRequest (s : Store) (requestId serverId method : String)
    (now : Nat) : Except JSError Store :=
  if requestId == "" then
    .error (.generic "Invalid audit record: missing request id")
  else
    .ok (storeSet s (buildPendingKey requestId)
      { requestId := requestId
        serverId := serverId
        method := method
        requestStatus := "pending"
        paymentStatus := "pending"
        createdAt := now })

/-- PaymentAuditStorage.getPendingRequest. -/
def getPendingRequest (s : Store) (requestId : String) : Option AuditRecord :=
  storeGet s (buildPendingKey requestId)

/-- PaymentAuditStorage.markRequestCompleted: read the record from the
pending key; when present, mark it completed and write it under the bare
request id. The pending entry itself is not touched. -/
def markRequestCompleted (s : Store) (requestId : String)
    (completedAt : Nat) : Store :=
  match storeGet s (buildPendingKey requestId) with
  | none => s
  | some r =>
    storeSet s requestId
      { r with
          requestStatus := "completed"
          requestCompletedAt := some completedAt }

/-- Optional detail arguments of updatePaymentStatus. -/
structure PaymentStatusDetails where
  transactionHash : Option String := none
  payerAddress : Option String := none
  errorReason : Option String := none
  deriving Repr, DecidableEq

/-- PaymentAuditStorage.updatePaymentStatus: read the record from the
pending key; update payment fields; write it under the bare request id for
a non-pending status and back under the pending key otherwise. -/
def updatePaymentStatus (s : Store) (requestId status : String)
    (details : PaymentStatusDetails) (completedAt : Nat) : Store :=
  match storeGet s (buildPendingKey requestId) with
  | none => s
  | some r0 =>
    let r1 := { r0 with
                  paymentStatus := status
                  paymentCompletedAt := some completedAt }
    let r2 := match details.transactionHash with
              | some t => { r1 with transactionHash := some t }
              | none => r1
    let r3 := match details.payerAddress with
              | some a => { r2 with payerAddress := some a }
              | none => r2
    let r4 := match details.errorReason with
              | some m => { r3 with errorReason := some m }
              | none => r3
    if status ≠ "pending" then storeSet s requestId r4
    else storeSet s (buildPendingKey requestId) r4

/-- PaymentAuditStorage.removePendingRequest: deletes the bare request-id
key, not the pending one. -/
def removePendingRequest (s : Store) (requestId : String) : Store :=
  storeDelete s requestId

/-! Handler registration, from src/src/server/services/handlers
handler-registry (extractHandlersFromInstance and createSessionHandlers)
and the decorators. -/

/-- Decorator options of an MCPTool-annotated method, as registration
consumes them. -/
structure MCPToolOptions where
  name : String
  payment : Option PaymentOptions := none
  deriving Repr, DecidableEq

/-- Decorator options of an MCPPrompt-annotated method. -/
structure MCPPromptOptions where
  name : String
  payment : Option PaymentOptions := none
  deriving Repr, DecidableEq

/-- Decorator options of an MCPResource-annotated method; template chooses
the resource-template kind. -/
structure MCPResourceOptions where
  name : String
  template : Bool := false
  payment : Option PaymentOptions := none
  deriving Repr, DecidableEq

/-- One own property of the instance prototype, with the decorator metadata
found on it (none everywhere for an undecorated method). -/
structure MethodInfo where
  methodName : String
  toolOptions : Option MCPToolOptions := none
  promptOptions : Option MCPPromptOptions := none
  resourceOptions : Option MCPResourceOptions := none
  deriving Repr, DecidableEq

/-- HandlerRegistry.extractHandlersFromInstance: build a descriptor for every
decorated method, tool metadata first, then prompt, then resource; the
payment options are carried over unchanged and unvalidated. -/
def extractHandlersFromInstance (methods : List MethodInfo) :
    List HandlerInfo :=
  methods.filterMap fun m =>
    match m.toolOptions with
    | some t =>
      some { name := t.name, type := "tool", paymentOptions := t.payment }
    | none =>
      match m.promptOptions with
      | some pr =>
        some { name := pr.name, type := "prompt",
               paymentOptions := pr.payment }
      | none =>
        match m.resourceOptions with
        | some r =>
          some { name := r.name
                 type := if r.template then "resourceTemplate" else "resource"
                 paymentOptions := r.payment }
        | none => none

/-- Session handler lists, partitioned by kind. -/
structure SessionHandlers where
  tools : List HandlerInfo := []
  prompts : List HandlerInfo := []
  resources : List HandlerInfo := []
  resourceTemplates : List HandlerInfo := []
  deriving Repr, DecidableEq

/-- HandlerRegistry.createSessionHandlers for one instance: push each
extracted descriptor onto the list of its kind. -/
def createSessionHandlers (methods : List MethodInfo) : SessionHandlers :=
  (extractHandlersFromInstance methods).foldl
    (fun acc h =>
      if h.type == "tool" then { acc with tools := acc.tools ++ [h] }
      else if h.type == "prompt" then
        { acc with prompts := acc.prompts ++ [h] }
      else if h.type == "resource" then
        { acc with resources := acc.resources ++ [h] }
      else { acc with resourceTemplates := acc.resourceTemplates ++ [h] })
    {}

/-! Concrete fixtures used by witnesses and counterexamples, matching the
happy-path scenario of the end-to-end tests. -/

def reqs0 : PaymentRequirements :=
  { scheme := "exact"
    network := "base-sepolia"
    maxAmountRequired := "1000"
    resource := "/tools/add-numbers"
    description := "Payment for add-numbers"
    mimeType := "application/json"
    payTo := "0xserver"
    maxTimeoutSeconds := 60
    asset := "0xasset" }

def opts0 : OrchestratorOptions :=
  { payTo := "0xserver", network := "base-sepolia" }

def proof0 : PaymentPayload :=
  { x402Version := 1, scheme := "exact", network := "base-sepolia"
    signature := some "0xsig" }

def resp0 : PaymentRequiredResponse := { id := "r1", payment := some proof0 }

def extra0 : Extra := { requestId := "r1" }

def env0 : WrapEnv :=
  { subRpc := .ok resp0
    facValidation := { isValid := true }
    handlerOutcome := .ok "Result: 30"
    execOutcome := .ok { success := true, transaction := some "0xabc"
                         network := "base-sepolia", payer := some "0xpayer" } }

def info0 : HandlerInfo :=
  { name := "add-numbers", type := "tool"
    paymentOptions := some { amount := 1 } }

/-- A run in which the facilitator verifies but the handler body throws. -/
def envBoom : WrapEnv :=
  { env0 with handlerOutcome := .thrown (.generic "boom") }

/-! Helper lemmas about the verify phase. -/

/-- A successful validatePaymentProof stores the proof and the requirements
into the context and changes nothing else. -/
theorem validatePaymentProof_ok_extra (fac : ValidationResult)
    (resp : PaymentRequiredResponse) (reqs : PaymentRequirements)
    (extra : Extra) (payment : PaymentPayload) (e2 : Extra)
    (h : validatePaymentProof fac resp reqs extra = .ok (payment, e2)) :
    e2 = { extra with paymentProof := some payment
                      paymentRequirements := some reqs } := by
  unfold validatePaymentProof at h
  cases hp : resp.payment with
  | none => rw [hp] at h; simp at h
  | some pay =>
    rw [hp] at h
    by_cases h1 : pay.signatureMissing = true <;>
      by_cases h2 : pay.x402Version = 1 <;>
        by_cases h3 : pay.scheme = "exact" <;>
          by_cases h4 : pay.network = reqs.network <;>
            by_cases h5 : fac.isValid = true <;>
              simp_all <;> (obtain ⟨rfl, rfl⟩ := h; rfl)

/-- A successful verify phase yields a context holding a proof and exactly
the assembled requirements, with the original request id. -/
theorem validatePayment_ok_extra (opts : OrchestratorOptions)
    (reqs : PaymentRequirements) (fac : ValidationResult)
    (sub : SubRpcOutcome) (extra : Extra) (e2 : Extra)
    (h : validatePayment opts reqs fac sub extra = .ok e2) :
    e2.paymentProof.isSome = true ∧ e2.paymentRequirements = some reqs ∧
      e2.requestId = extra.requestId := by
  unfold validatePayment at h
  cases hsr : sendPaymentRequiredRequest opts reqs sub with
  | error e => rw [hsr] at h; simp at h
  | ok r =>
    rw [hsr] at h
    cases hvp : validatePaymentProof fac r reqs extra with
    | error e => simp [hvp] at h
    | ok pr =>
      obtain ⟨payment, e2'⟩ := pr
      simp [hvp] at h
      have he := validatePaymentProof_ok_extra fac r reqs extra payment e2' hvp
      rw [← h, he]
      exact ⟨rfl, rfl, rfl⟩

/-- A client ledger holding exactly the pending audit record for request id
r1, as storePendingRequest creates it. -/
def c3Store0 : Store :=
  match storePendingRequest [] "r1" "http://localhost:3000" "tools/call" 0 with
  | .ok s => s
  | .error _ => []

/-! Claim theorems. -/

/-- C1: for every invocation of a protected handler, no settlement occurs
unless the handler body returns normally: if the handler throws, the
wrapper does not call the orchestrator settlePayment, the facilitator
executePayment is never invoked, and no x402/payment_result notification
is emitted for that invocation. -/
theorem c1_handler_throws_no_settlement (info : HandlerInfo)
    (opts : OrchestratorOptions) (reqs : PaymentRequirements)
    (env : WrapEnv) (extra : Extra) (e : JSError)
    (h : env.handlerOutcome = .thrown e) :
    (createWrappedHandler info opts reqs env extra).settleCalled = false ∧
    (createWrappedHandler info opts reqs env extra).execCalled = false ∧
    (createWrappedHandler info opts reqs env extra).sentNotifs = [] := by
  unfold createWrappedHandler
  cases hpo : info.paymentOptions with
  | none => exact ⟨rfl, rfl, rfl⟩
  | some po =>
    cases hv : validatePayment opts reqs env.facValidation env.subRpc extra with
    | error pe => exact ⟨rfl, rfl, rfl⟩
    | ok e2 => rw [h]; exact ⟨rfl, rfl, rfl⟩

/-- Witness for C1 at the S4 scenario: the handler throws "boom". -/
theorem c1_handler_throws_no_settlement_witness :
    (createWrappedHandler info0 opts0 reqs0 envBoom extra0).settleCalled
        = false ∧
    (createWrappedHandler info0 opts0 reqs0 envBoom extra0).execCalled
        = false ∧
    (createWrappedHandler info0 opts0 reqs0 envBoom extra0).sentNotifs = [] :=
  c1_handler_throws_no_settlement info0 opts0 reqs0 envBoom extra0
    (.generic "boom") rfl

/-- C2 as stated is false: on the happy-path invocation the handler body
runs with paymentProof and paymentRequirements present on its context (they
are attached during verification and only deleted in the finally block,
after the handler and settlement have run). -/
theorem c2_counterexample :
    ((createWrappedHandler info0 opts0 reqs0 env0 extra0).handlerExtras.all
      (fun x => x.paymentProof == none && x.paymentRequirements == none))
      = false := by decide

/-- C2 amended: the wrapper deletes paymentProof and paymentRequirements
from the context before returning on every exit path, but while the handler
body of a protected invocation runs, both fields are present on its
context. -/
theorem c2_amended_strip_on_exit (info : HandlerInfo)
    (opts : OrchestratorOptions) (reqs : PaymentRequirements)
    (env : WrapEnv) (extra : Extra) :
    ((createWrappedHandler info opts reqs env extra).finalExtra.paymentProof
        = none ∧
     (createWrappedHandler info opts reqs env
        extra).finalExtra.paymentRequirements = none) ∧
    (∀ po, info.paymentOptions = some po →
      ∀ x ∈ (createWrappedHandler info opts reqs env extra).handlerExtras,
        x.paymentProof.isSome = true ∧ x.paymentRequirements = some reqs) := by
  unfold createWrappedHandler
  cases hpo : info.paymentOptions with
  | none =>
    refine ⟨⟨rfl, rfl⟩, ?_⟩
    intro po hpo2
    simp at hpo2
  | some po =>
    cases hv : validatePayment opts reqs env.facValidation env.subRpc extra with
    | error pe =>
      refine ⟨⟨rfl, rfl⟩, ?_⟩
      intro po2 _ x hx
      simp at hx
    | ok e2 =>
      have he := validatePayment_ok_extra opts reqs env.facValidation
        env.subRpc extra e2 hv
      cases ho : env.handlerOutcome with
      | thrown e =>
        refine ⟨⟨rfl, rfl⟩, ?_⟩
        intro po2 _ x hx
        simp at hx
        subst hx
        exact ⟨he.1, he.2.1⟩
      | ok r =>
        refine ⟨⟨rfl, rfl⟩, ?_⟩
        intro po2 _ x hx
        simp at hx
        subst hx
        exact ⟨he.1, he.2.1⟩

/-- Witness for C2 amended, at the happy-path invocation: the context the
handler observes carries the proof and the requirements. -/
theorem c2_amended_strip_on_exit_witness :
    ({ requestId := "r1", paymentProof := some proof0
       paymentRequirements := some reqs0 } : Extra).paymentProof.isSome
        = true ∧
    ({ requestId := "r1", paymentProof := some proof0
       paymentRequirements := some reqs0 } : Extra).paymentRequirements
        = some reqs0 :=
  (c2_amended_strip_on_exit info0 opts0 reqs0 env0 extra0).2
    { amount := 1 } rfl
    { requestId := "r1", paymentProof := some proof0
      paymentRequirements := some reqs0 }
    (by decide)

/-- C3: evaluation of the audit store at the failing input. Starting from a
store holding only the pending record for request id r1, after
markRequestCompleted (and likewise after a terminal updatePaymentStatus)
the record is rekeyed under r1 but the pending:r1 entry remains in the
store, still in its pending state. -/
theorem c3_pending_entry_remains :
    (getPendingRequest (markRequestCompleted c3Store0 "r1" 5) "r1")
        ≠ none ∧
    ((getPendingRequest (markRequestCompleted c3Store0 "r1" 5) "r1").map
        (fun r => r.requestStatus)) = some "pending" ∧
    ((storeGet (markRequestCompleted c3Store0 "r1" 5) "r1").map
        (fun r => r.requestStatus)) = some "completed" ∧
    (getPendingRequest
        (updatePaymentStatus c3Store0 "r1" "completed" {} 5) "r1") ≠ none := by
  decide

/-- A settlement failure in the sense of the state machine: executePayment
returned success=false or threw. -/
def isSettleFailure : Except JSError PaymentResult → Bool
  | .ok res => !res.success
  | .error _ => true

/-- The PaymentError code settlePayment rethrows on a settlement failure:
PAYMENT_EXECUTION_FAILED for a success=false result or a generic throw, and
the thrown code verbatim when executePayment threw a PaymentError. -/
def settleFailureCode : Except JSError PaymentResult → Int
  | .ok _ => ERROR_CODES_PAYMENT_EXECUTION_FAILED
  | .error (.generic _) => ERROR_CODES_PAYMENT_EXECUTION_FAILED
  | .error (.payment pe) => pe.code

/-- A run in which the facilitator executePayment throws a PaymentError with
code REPLAY_DETECTED instead of returning a result. -/
def envReplay : WrapEnv :=
  { env0 with execOutcome := .error (.payment
      { code := ERROR_CODES_REPLAY_DETECTED, message := "replay detected" }) }

/-- C4 as stated is false: when executePayment throws a PaymentError whose
code is not PAYMENT_EXECUTION_FAILED (here REPLAY_DETECTED 40203), the
orchestrator emits the success=false payment_result notification but
rethrows that PaymentError verbatim, so the invocation fails with 40203,
not 40204. -/
theorem c4_counterexample :
    ((createWrappedHandler info0 opts0 reqs0 envReplay extra0).sentNotifs.any
      (fun n => !n.success)) = true ∧
    (createWrappedHandler info0 opts0 reqs0 envReplay extra0).result =
      .error (.payment { code := ERROR_CODES_REPLAY_DETECTED
                         message := "replay detected" }) ∧
    ERROR_CODES_REPLAY_DETECTED ≠ ERROR_CODES_PAYMENT_EXECUTION_FAILED := by
  decide

/-- Shape of settlePayment when the context carries a proof and
requirements: a settlement failure sends exactly one success=false
notification bearing the context request id and rethrows a PaymentError
whose code is settleFailureCode; a settlement success sends exactly one
success=true notification bearing the context request id and returns
normally. -/
theorem settlePayment_shape (opts : OrchestratorOptions)
    (execOutcome : Except JSError PaymentResult) (extra : Extra)
    (pp : PaymentPayload) (pr : PaymentRequirements)
    (hpp : extra.paymentProof = some pp)
    (hpr : extra.paymentRequirements = some pr) :
    (isSettleFailure execOutcome = true →
      ∃ msg, (settlePayment opts execOutcome extra).sentNotifs =
        [{ success := false, errorReason := some msg
           network := opts.network, requestId := extra.requestId }] ∧
      ∃ pe, (settlePayment opts execOutcome extra).result =
          .error (.payment pe) ∧
        pe.code = settleFailureCode execOutcome) ∧
    (isSettleFailure execOutcome = false →
      ∃ res, execOutcome = .ok res ∧ res.success = true ∧
        (settlePayment opts execOutcome extra).sentNotifs =
          [{ success := true, transaction := res.transaction
             network := res.network, payer := res.payer
             requestId := extra.requestId }] ∧
        (settlePayment opts execOutcome extra).result = .ok ()) := by
  unfold settlePayment
  rw [hpp, hpr]
  cases execOutcome with
  | ok res =>
    cases hres : res.success with
    | true =>
      refine ⟨?_, ?_⟩
      · intro hf
        simp [isSettleFailure, hres] at hf
      · intro _
        exact ⟨res, rfl, hres, by simp [hres], by simp [hres]⟩
    | false =>
      refine ⟨?_, ?_⟩
      · intro _
        refine ⟨"Payment settlement failed: " ++ res.errorReason.getD
          "undefined", by simp [hres], ?_⟩
        refine ⟨{ code := ERROR_CODES_PAYMENT_EXECUTION_FAILED
                  message := "Payment settlement failed: " ++
                    res.errorReason.getD "undefined" },
          by simp [hres], ?_⟩
        simp [settleFailureCode]
      · intro hf
        simp [isSettleFailure, hres] at hf
  | error thrown =>
    cases thrown with
    | payment pe =>
      refine ⟨?_, ?_⟩
      · intro _
        exact ⟨pe.message, by simp [JSError.messageOf],
          pe, by simp, by simp [settleFailureCode]⟩
      · intro hf
        simp [isSettleFailure] at hf
    | generic m =>
      refine ⟨?_, ?_⟩
      · intro _
        refine ⟨m, by simp [JSError.messageOf], ?_⟩
        refine ⟨{ code := ERROR_CODES_PAYMENT_EXECUTION_FAILED
                  message := "Payment settlement failed: " ++ m },
          by simp, ?_⟩
        simp [settleFailureCode]
      · intro hf
        simp [isSettleFailure] at hf

/-- C4 amended: in the wrapped flow, every success=false payment_result
notification carries the invocation request id, is the only
notification, and accompanies a PaymentError-failed invocation whose code
is PAYMENT_EXECUTION_FAILED when executeSettlement returned success=false
or threw a non-PaymentError value, and the code of the thrown PaymentError
otherwise; conversely every settlement failure that is reached sends
exactly one such notification. -/
theorem c4_amended_settlement_failure (info : HandlerInfo)
    (opts : OrchestratorOptions) (reqs : PaymentRequirements)
    (env : WrapEnv) (extra : Extra) :
    (∀ n ∈ (createWrappedHandler info opts reqs env extra).sentNotifs,
        n.success = false →
        n.requestId = extra.requestId ∧
        (createWrappedHandler info opts reqs env extra).sentNotifs = [n] ∧
        ∃ pe, (createWrappedHandler info opts reqs env extra).result =
            .error (.payment pe) ∧
          pe.code = settleFailureCode env.execOutcome) ∧
    ((createWrappedHandler info opts reqs env extra).settleCalled = true →
      isSettleFailure env.execOutcome = true →
      ∃ n, (createWrappedHandler info opts reqs env extra).sentNotifs = [n] ∧
        n.success = false ∧ n.requestId = extra.requestId) := by
  unfold createWrappedHandler
  cases hpo : info.paymentOptions with
  | none =>
    refine ⟨?_, ?_⟩
    · intro n hn
      simp at hn
    · intro hsc
      simp at hsc
  | some po =>
    cases hv : validatePayment opts reqs env.facValidation env.subRpc extra with
    | error pe =>
      refine ⟨?_, ?_⟩
      · intro n hn
        simp at hn
      · intro hsc
        simp at hsc
    | ok e2 =>
      have he := validatePayment_ok_extra opts reqs env.facValidation
        env.subRpc extra e2 hv
      cases ho : env.handlerOutcome with
      | thrown e =>
        refine ⟨?_, ?_⟩
        · intro n hn
          simp at hn
        · intro hsc
          simp at hsc
      | ok r =>
        cases hpp : e2.paymentProof with
        | none => rw [hpp] at he; simp at he
        | some pp =>
          have hs := settlePayment_shape opts env.execOutcome e2 pp reqs
            hpp he.2.1
          dsimp only
          refine ⟨?_, ?_⟩
          · intro n hn hnf
            cases hsf : isSettleFailure env.execOutcome with
            | true =>
              obtain ⟨msg, hnotifs, pe, hres, hcode⟩ := hs.1 hsf
              rw [hnotifs] at hn
              simp at hn
              subst hn
              refine ⟨he.2.2, hnotifs, pe, ?_, hcode⟩
              rw [hres]
              rfl
            | false =>
              obtain ⟨res, hexec, hsucc, hnotifs, _⟩ := hs.2 hsf
              rw [hnotifs] at hn
              simp at hn
              subst hn
              simp at hnf
          · intro _ hsf
            obtain ⟨msg, hnotifs, pe, hres, hcode⟩ := hs.1 hsf
            exact ⟨_, hnotifs, rfl, he.2.2⟩

/-- The failed settlement result the mock facilitator returns when
configured with shouldExecute=false. -/
def resSettleFail : PaymentResult :=
  { success := false, transaction := some "0x"
    errorReason := some "unexpected_settle_error" }

/-- A run in which the facilitator reports a failed settlement, as in the
S5 scenario. -/
def envSettleFail : WrapEnv :=
  { env0 with execOutcome := .ok resSettleFail }

/-- Witness for C4 amended: the S5 settlement-failure scenario, where
executeSettlement returns success=false. -/
theorem c4_amended_settlement_failure_witness :
    ∃ n, (createWrappedHandler info0 opts0 reqs0 envSettleFail
        extra0).sentNotifs = [n] ∧
      n.success = false ∧ n.requestId = extra0.requestId :=
  (c4_amended_settlement_failure info0 opts0 reqs0 envSettleFail
    extra0).2 rfl rfl

/-- Every notification settlePayment sends carries the context request id. -/
theorem settlePayment_notif_requestId (opts : OrchestratorOptions)
    (execOutcome : Except JSError PaymentResult) (extra : Extra) :
    ∀ n ∈ (settlePayment opts execOutcome extra).sentNotifs,
      n.requestId = extra.requestId := by
  intro n hn
  unfold settlePayment at hn
  cases hpp : extra.paymentProof with
  | none =>
    rw [hpp] at hn
    simp at hn
    subst hn; rfl
  | some pp =>
    rw [hpp] at hn
    cases hpr : extra.paymentRequirements with
    | none =>
      rw [hpr] at hn
      simp at hn
      subst hn; rfl
    | some pr =>
      rw [hpr] at hn
      cases execOutcome with
      | error thrown => simp at hn; subst hn; rfl
      | ok res =>
        cases hres : res.success <;> simp [hres] at hn <;> subst hn <;> rfl

/-- A successful handlePaymentRequired response echoes the JSON-RPC id of
the inbound challenge request. -/
theorem handlePaymentRequired_ok_id (cfg : ClientConfig) (cenv : ClientEnv)
    (req : ClientRequest) (resp : ClientResponse)
    (h : (handlePaymentRequired cfg cenv req).result = .ok resp) :
    resp.id = req.id := by
  unfold handlePaymentRequired at h
  dsimp only at h
  rcases hg : runGuardrails cfg.guardrails cenv.conversion req.params.payTo
      with pe | u <;>
    rw [hg] at h <;> split_ifs at h <;> simp_all <;>
    exact (congrArg ClientResponse.id h).symm

/-- C5: for every protected invocation, the originating request id appears
unchanged as the JSON-RPC id and as params.requestId of the outbound
payment_required challenge, as params.requestId of every payment_result
notification, and the client echoes the JSON-RPC id of the challenge on its
response. -/
theorem c5_requestid_roundtrip (info : HandlerInfo)
    (opts : OrchestratorOptions) (reqs : PaymentRequirements)
    (env : WrapEnv) (extra : Extra) (cfg : ClientConfig) (cenv : ClientEnv)
    (req : ClientRequest) :
    (∀ c ∈ (createWrappedHandler info opts reqs env extra).challenges,
        c.id = extra.requestId ∧ c.requestId = extra.requestId) ∧
    (∀ n ∈ (createWrappedHandler info opts reqs env extra).sentNotifs,
        n.requestId = extra.requestId) ∧
    (∀ resp, (handlePaymentRequired cfg cenv req).result = .ok resp →
        resp.id = req.id) := by
  refine ⟨?_, ?_, fun resp h => handlePaymentRequired_ok_id cfg cenv req
    resp h⟩
  · unfold createWrappedHandler
    cases hpo : info.paymentOptions with
    | none =>
      intro c hc
      simp at hc
    | some po =>
      cases hv : validatePayment opts reqs env.facValidation env.subRpc
          extra with
      | error pe =>
        intro c hc
        simp at hc
        subst hc
        exact ⟨rfl, rfl⟩
      | ok e2 =>
        cases ho : env.handlerOutcome with
        | thrown e =>
          intro c hc
          simp at hc
          subst hc
          exact ⟨rfl, rfl⟩
        | ok r =>
          intro c hc
          simp at hc
          subst hc
          exact ⟨rfl, rfl⟩
  · unfold createWrappedHandler
    cases hpo : info.paymentOptions with
    | none =>
      intro n hn
      simp at hn
    | some po =>
      cases hv : validatePayment opts reqs env.facValidation env.subRpc
          extra with
      | error pe =>
        intro n hn
        simp at hn
      | ok e2 =>
        have he := validatePayment_ok_extra opts reqs env.facValidation
          env.subRpc extra e2 hv
        cases ho : env.handlerOutcome with
        | thrown e =>
          intro n hn
          simp at hn
        | ok r =>
          intro n hn
          dsimp only at hn
          have hid := settlePayment_notif_requestId opts env.execOutcome
            e2 n hn
          rw [hid, he.2.2]

/-- A client without audit storage or guardrails. -/
def cfg0 : ClientConfig := { hasAuditStorage := false }

/-- A client environment with a found pending record and a successful
amount conversion. -/
def cenv0 : ClientEnv := { pendingFound := true, conversion := .ok 1 }

/-- Structurally valid challenge params carrying request id r1. -/
def params0 : ChallengeParams :=
  { scheme := "exact", network := "base-sepolia"
    maxAmountRequired := "1000", payTo := "0xserver", x402Version := 1
    requestId := "r1" }

/-- The inbound challenge request as the client sees it. -/
def creq0 : ClientRequest := { id := "c1", params := params0 }

/-- The success notification of the happy-path run. -/
def notif0 : PaymentResultParams :=
  { success := true, transaction := some "0xabc"
    network := "base-sepolia", payer := some "0xpayer", requestId := "r1" }

/-- Witness for C5 at the happy-path invocation: the challenge carries the
originating id in both positions, the settlement notification carries it,
and the client response echoes its request id. -/
theorem c5_requestid_roundtrip_witness :
    ((buildPaymentRequiredMsg reqs0 "r1").id = extra0.requestId ∧
      (buildPaymentRequiredMsg reqs0 "r1").requestId = extra0.requestId) ∧
    notif0.requestId = extra0.requestId ∧
    ({ id := "c1" } : ClientResponse).id = creq0.id :=
  ⟨(c5_requestid_roundtrip info0 opts0 reqs0 env0 extra0 cfg0 cenv0
      creq0).1 (buildPaymentRequiredMsg reqs0 "r1") (by decide),
    (c5_requestid_roundtrip info0 opts0 reqs0 env0 extra0 cfg0 cenv0
      creq0).2.1 notif0 (by decide),
    (c5_requestid_roundtrip info0 opts0 reqs0 env0 extra0 cfg0 cenv0
      creq0).2.2 { id := "c1" } (by decide)⟩

/-- C6: a method-not-found transport error on the payment_required sub-RPC
makes the verify phase fail with PAYMENT_REQUIRED carrying amount, asset,
paymentAddress and network in the error details. -/
theorem c6_method_not_found_payment_required (opts : OrchestratorOptions)
    (reqs : PaymentRequirements) (fac : ValidationResult) (extra : Extra)
    (e : TransportError) (h : isMethodNotFoundError e = true) :
    ∃ pe, validatePayment opts reqs fac (.err e) extra = .error pe ∧
      pe.code = ERROR_CODES_PAYMENT_REQUIRED ∧
      pe.details = some (.paymentRequiredInfo reqs.maxAmountRequired
        reqs.asset opts.payTo opts.network) := by
  unfold validatePayment sendPaymentRequiredRequest
  simp only [h, if_true]
  exact ⟨_, rfl, rfl, rfl⟩

/-- Witness for C6: the raw -32601 rejection of the S3 scenario. -/
theorem c6_method_not_found_payment_required_witness :
    ∃ pe, validatePayment opts0 reqs0 { isValid := true }
        (.err { code := some (-32601), message := "Method not found" })
        extra0 = .error pe ∧
      pe.code = ERROR_CODES_PAYMENT_REQUIRED ∧
      pe.details = some (.paymentRequiredInfo reqs0.maxAmountRequired
        reqs0.asset opts0.payTo opts0.network) :=
  c6_method_not_found_payment_required opts0 reqs0 { isValid := true }
    extra0 { code := some (-32601), message := "Method not found" }
    (by decide)

/-- C7 as stated is false: a transport error carrying the guardrail code
40210 is rewrapped with its own code, not with PAYMENT_INVALID. -/
theorem c7_counterexample :
    validatePayment opts0 reqs0 { isValid := true }
        (.err { code := some 40210, message := "guardrail rejected" })
        extra0 =
      .error { code := 40210
               message := "Failed to send payment request"
               details := some (.transportInfo (some 40210)
                 "guardrail rejected") } ∧
    (40210 : Int) ≠ ERROR_CODES_PAYMENT_INVALID := by decide

/-- C7 amended: a non-method-not-found transport error on the sub-RPC makes
the verify phase fail with a PaymentError whose code is the transport
error code itself when present and nonzero, and PAYMENT_INVALID only when
the transport error carries no usable code. -/
theorem c7_amended_transport_error_code (opts : OrchestratorOptions)
    (reqs : PaymentRequirements) (fac : ValidationResult) (extra : Extra)
    (e : TransportError) (h : isMethodNotFoundError e = false) :
    ∃ pe, validatePayment opts reqs fac (.err e) extra = .error pe ∧
      pe.code = (match e.code with
                 | some c =>
                   if c ≠ 0 then c else ERROR_CODES_PAYMENT_INVALID
                 | none => ERROR_CODES_PAYMENT_INVALID) := by
  unfold validatePayment sendPaymentRequiredRequest
  simp only [h, Bool.false_eq_true, if_false]
  exact ⟨_, rfl, rfl⟩

/-- Witness for C7 amended: a codeless transport failure falls back to
PAYMENT_INVALID. -/
theorem c7_amended_transport_error_code_witness :
    ∃ pe, validatePayment opts0 reqs0 { isValid := true }
        (.err { code := none, message := "socket closed" }) extra0 =
          .error pe ∧
      pe.code = (match (none : Option Int) with
                 | some c =>
                   if c ≠ 0 then c else ERROR_CODES_PAYMENT_INVALID
                 | none => ERROR_CODES_PAYMENT_INVALID) :=
  c7_amended_transport_error_code opts0 reqs0 { isValid := true } extra0
    { code := none, message := "socket closed" } (by decide)

/-- C8: with maxPaymentPerCall configured to X, a converted priced amount
equal to X passes the per-call cap check exactly: the cap stage succeeds,
enforce proceeds to the allowlist stage, and (with no allowlist configured)
the full client flow signs and returns a response; while any amount
strictly greater than X raises GUARDRAIL_VIOLATION with details amount and
maxPaymentPerCall, and in the violating case no signing account is
obtained and no payload is signed. -/
theorem c8_per_call_cap (X amount : ℚ) (g : GuardrailsConfig)
    (cfg : ClientConfig) (env envEq : ClientEnv) (req : ClientRequest)
    (hg : cfg.guardrails = some g) (hm : g.maxPaymentPerCall = some X)
    (hw : g.whitelistedServers = none)
    (hc : env.conversion = .ok amount) (hceq : envEq.conversion = .ok X)
    (hgt : amount > X)
    (h1 : req.params.payTo ≠ "") (h2 : req.params.maxAmountRequired ≠ "")
    (h3 : req.params.network ≠ "") (h4 : req.params.scheme = "exact")
    (h5 : req.params.x402Version = 1) (h6 : req.params.requestId ≠ "")
    (h7 : cfg.hasAuditStorage = true → env.pendingFound = true)
    (h8 : cfg.hasAuditStorage = true → envEq.pendingFound = true) :
    capCheck g.maxPaymentPerCall X = .ok () ∧
    enforce g X req.params.payTo =
      whitelistCheck g.whitelistedServers req.params.payTo ∧
    (handlePaymentRequired cfg envEq req).result = .ok { id := req.id } ∧
    ClientEvent.signedPayload ∈
      (handlePaymentRequired cfg envEq req).events ∧
    (handlePaymentRequired cfg env req).result =
      .error (.payment { code := ERROR_CODES_GUARDRAIL_VIOLATION
                         message := "Payment exceeds max per-call limit"
                         details := some (.guardrailInfo amount X) }) ∧
    ClientEvent.accountCreated ∉ (handlePaymentRequired cfg env req).events ∧
    ClientEvent.signedPayload ∉
      (handlePaymentRequired cfg env req).events := by
  have hcap : capCheck g.maxPaymentPerCall X = .ok () := by
    rw [hm]
    simp [capCheck]
  have hrunEq : runGuardrails cfg.guardrails envEq.conversion
      req.params.payTo = .ok () := by
    rw [hg, hceq]
    unfold runGuardrails enforce capCheck whitelistCheck
    dsimp only
    rw [hm, hw]
    simp
  have hrun : runGuardrails cfg.guardrails env.conversion req.params.payTo =
      .error { code := ERROR_CODES_GUARDRAIL_VIOLATION
               message := "Payment exceeds max per-call limit"
               details := some (.guardrailInfo amount X) } := by
    rw [hg, hc]
    unfold runGuardrails enforce capCheck
    dsimp only
    rw [hm]
    simp [hgt]
  refine ⟨hcap, ?_, ?_, ?_, ?_, ?_, ?_⟩
  · unfold enforce
    rw [hcap]
  all_goals
    unfold handlePaymentRequired
    dsimp only
    first
      | (rw [hrunEq]; split_ifs <;> simp_all)
      | (rw [hrun]; split_ifs <;> simp_all)

/-- The cap used by the C8 witness. -/
def gCap : GuardrailsConfig := { maxPaymentPerCall := some 1 }

/-- The client configuration of the C8 witness: cap configured, no audit
storage. -/
def cfgCap : ClientConfig :=
  { hasAuditStorage := false, guardrails := some gCap }

/-- The client environment of the C8 witness: the converted amount exceeds
the cap. -/
def envCap : ClientEnv := { pendingFound := true, conversion := .ok 2 }

/-- The client environment of the C8 witness boundary run: the converted
amount equals the cap exactly. -/
def envCapEq : ClientEnv := { pendingFound := true, conversion := .ok 1 }

/-- Witness for C8 at cap 1: the run priced exactly at the cap signs, the
run priced at 2 is rejected with GUARDRAIL_VIOLATION before signing. -/
theorem c8_per_call_cap_witness :
    capCheck gCap.maxPaymentPerCall 1 = .ok () ∧
    enforce gCap 1 creq0.params.payTo =
      whitelistCheck gCap.whitelistedServers creq0.params.payTo ∧
    (handlePaymentRequired cfgCap envCapEq creq0).result =
      .ok { id := creq0.id } ∧
    ClientEvent.signedPayload ∈
      (handlePaymentRequired cfgCap envCapEq creq0).events ∧
    (handlePaymentRequired cfgCap envCap creq0).result =
      .error (.payment { code := ERROR_CODES_GUARDRAIL_VIOLATION
                         message := "Payment exceeds max per-call limit"
                         details := some (.guardrailInfo 2 1) }) ∧
    ClientEvent.accountCreated ∉
      (handlePaymentRequired cfgCap envCap creq0).events ∧
    ClientEvent.signedPayload ∉
      (handlePaymentRequired cfgCap envCap creq0).events :=
  c8_per_call_cap 1 2 gCap cfgCap envCap envCapEq creq0 rfl rfl rfl rfl rfl
    (by decide) (by decide) (by decide) (by decide) (by decide) (by decide)
    (by decide) (by decide) (by decide)

/-- A tool method decorated with paymentOptions.amount = 0. -/
def zeroAmountMethod : MethodInfo :=
  { methodName := "freeTool"
    toolOptions := some { name := "free-tool"
                          payment := some { amount := 0 } } }

/-- C9 as stated is false: a descriptor whose paymentOptions.amount is 0 is
accepted by registration, extracted, and added to the session tool list;
no validation of the amount occurs anywhere in registration. -/
theorem c9_counterexample :
    extractHandlersFromInstance [zeroAmountMethod] =
      [{ name := "free-tool", type := "tool"
         paymentOptions := some { amount := 0 } }] ∧
    (createSessionHandlers [zeroAmountMethod]).tools =
      [{ name := "free-tool", type := "tool"
         paymentOptions := some { amount := 0 } }] := by decide

/-- C9 amended: registration performs no validation of
paymentOptions.amount; a decorated method whose payment amount is zero or
negative is extracted into a descriptor carrying those payment options
unchanged. -/
theorem c9_amended_no_amount_validation (m : String) (t : MCPToolOptions)
    (p : PaymentOptions) (hp : t.payment = some p) (ha : p.amount ≤ 0) :
    extractHandlersFromInstance [{ methodName := m
                                   toolOptions := some t }] =
      [{ name := t.name, type := "tool", paymentOptions := some p }] := by
  unfold extractHandlersFromInstance
  simp [List.filterMap, hp]

/-- Witness for C9 amended at amount 0. -/
theorem c9_amended_no_amount_validation_witness :
    extractHandlersFromInstance [zeroAmountMethod] =
      [{ name := "free-tool", type := "tool"
         paymentOptions := some { amount := 0 } }] :=
  c9_amended_no_amount_validation "freeTool"
    { name := "free-tool", payment := some { amount := 0 } }
    { amount := 0 } rfl (by decide)

/-- C10: a client constructed without an auditStorage option performs no
ledger lookup in handlePaymentRequired: the outcome is independent of the
ledger contents, no lookup event occurs, and a structurally valid
challenge that passes the configured guardrails proceeds to account
creation and signing, so the unknown-payment PAYMENT_INVALID rejection can
never arise. -/
theorem c10_no_audit_storage (cfg : ClientConfig) (env : ClientEnv)
    (req : ClientRequest) (h0 : cfg.hasAuditStorage = false) :
    (∀ pf, handlePaymentRequired cfg { env with pendingFound := pf } req =
        handlePaymentRequired cfg env req) ∧
    (∀ rid, ClientEvent.ledgerLookup rid ∉
        (handlePaymentRequired cfg env req).events) ∧
    (req.params.payTo ≠ "" → req.params.maxAmountRequired ≠ "" →
      req.params.network ≠ "" → req.params.scheme = "exact" →
      req.params.x402Version = 1 → req.params.requestId ≠ "" →
      runGuardrails cfg.guardrails env.conversion req.params.payTo
          = .ok () →
      (handlePaymentRequired cfg env req).result = .ok { id := req.id } ∧
      ClientEvent.accountCreated ∈
        (handlePaymentRequired cfg env req).events ∧
      ClientEvent.signedPayload ∈
        (handlePaymentRequired cfg env req).events) := by
  refine ⟨?_, ?_, ?_⟩
  · intro pf
    unfold handlePaymentRequired
    dsimp only
    rw [h0]
    simp
  · intro rid
    unfold handlePaymentRequired
    dsimp only
    rw [h0]
    rcases hg : runGuardrails cfg.guardrails env.conversion
        req.params.payTo with pe | u <;>
      split_ifs <;> simp_all
  · intro h1 h2 h3 h4 h5 h6 hrun
    unfold handlePaymentRequired
    dsimp only
    rw [h0, hrun]
    split_ifs <;> simp_all

/-- Witness for C10: the structurally valid challenge creq0 on a client
without audit storage or guardrails. -/
theorem c10_no_audit_storage_witness :
    (handlePaymentRequired cfg0 cenv0 creq0).result =
        .ok { id := creq0.id } ∧
    ClientEvent.accountCreated ∈
      (handlePaymentRequired cfg0 cenv0 creq0).events ∧
    ClientEvent.signedPayload ∈
      (handlePaymentRequired cfg0 cenv0 creq0).events :=
  (c10_no_audit_storage cfg0 cenv0 creq0 rfl).2.2 (by decide) (by decide)
    (by decide) (by decide) (by decide) (by decide) (by decide)

end X402
